import Mathlib

/-!
Verification of the cockpit-machines VM-dialog components against their
design specification.

The development shallowly embeds the dialog state machines of
`src/components/vm/disks/diskAdd.jsx` (the AddDisk modal),
`src/components/vm/overview/bootOrder.jsx` (the boot-order modal) and the
storage-pool delete dialog.  React `setState` calls are modelled by
sequentially applying the state updates of one event handler to an explicit
record; promise-returning libvirt calls are recorded as values of an
`ExtCall` list that a handler issues synchronously; a JavaScript `TypeError`
(dereference of `undefined`) is modelled by an `Option.none` result.

Helper functions imported from `helpers.js` and `libvirtApi/*.js` are not
part of the analysed sources; those are modelled from the specification and
are marked `Modelled from the spec:` in their doc comments.
-/

namespace CockpitMachines

/-- A libvirt storage volume as carried in a pool's `volumes` array. -/
structure Volume where
  name : String
  path : String
  format : Option String
deriving DecidableEq, Repr

/-- A VM disk entry (`vm.disks[target]`): its source may reference a file
path, a volume name and a pool, and it carries a device kind and a bus. -/
structure Disk where
  sourceFile : Option String
  sourceVolume : Option String
  sourcePool : Option String
  device : String
  bus : String
deriving DecidableEq, Repr

/-- A libvirt storage pool with the fields the dialogs read (`id` is the
object path passed to the deactivate/undefine calls). -/
structure StoragePool where
  name : String
  id : String
  type : String
  connectionName : String
  capacity : Rat
  volumes : List Volume
  active : Bool
  persistent : Bool
deriving DecidableEq, Repr

/-- A libvirt domain (VM): `disks` is the object keyed by disk target,
modelled as an association list in property order. -/
structure VM where
  name : String
  id : String
  connectionName : String
  state : String
  disks : List (String × Disk)
deriving DecidableEq, Repr

/-- JavaScript falsiness of an optional string: `undefined` and `""` are
falsy, every other string is truthy. -/
def strFalsy : Option String → Bool
  | none => true
  | some s => s = ""

/-- JS `a || b` on optional strings: `a` when truthy, else `b`. -/
def jsStrOr (a b : Option String) : Option String :=
  if strFalsy a then b else a

/-- The three values of the `mode` radio group of the AddDisk dialog
(`CREATE_NEW`, `USE_EXISTING`, `CUSTOM_PATH` in the source). -/
inductive Mode where
  | createNew
  | useExisting
  | customPath
deriving DecidableEq, Repr

/-- Pool types that do not support volume creation
(`poolTypesNotSupportingVolumeCreation` in diskAdd.jsx). -/
def poolTypesNotSupportingVolumeCreation : List String :=
  ["iscsi", "iscsi-direct", "gluster", "mpath"]

/-- Modelled from the spec: the `units` table of helpers.js is not under
src/; the dialog uses byte-based binary units (the size row offers MiB and
GiB, the pool capacity is in bytes). -/
inductive DiskUnit where
  | B
  | KiB
  | MiB
  | GiB
deriving DecidableEq, Repr

/-- Byte factor of a unit. -/
def DiskUnit.factor : DiskUnit → Rat
  | .B => 1
  | .KiB => 1024
  | .MiB => 1048576
  | .GiB => 1073741824

/-- Modelled from the spec: `convertToUnit` of helpers.js is not under src/;
it rescales a quantity between byte-based units. -/
def convertToUnit (value : Rat) (fromUnit toUnit : DiskUnit) : Rat :=
  value * fromUnit.factor / toUnit.factor

/-- Modelled from the spec: `domainIsRunning` of libvirtApi/domain.js is not
under src/; a domain is running exactly when its state is "running". -/
def domainIsRunning (state : String) : Bool :=
  state = "running"

/-- Modelled from the spec: `getDefaultVolumeFormat` of helpers.js is not
under src/; the default volume format is derived from the pool type
(file-system backed pool types default to qcow2). -/
def getDefaultVolumeFormatOfType (t : String) : Option String :=
  if t ∈ ["dir", "fs", "netfs", "gluster", "vstorage"] then some "qcow2"
  else if t = "disk" then some "none"
  else none

/-- Default volume format of a pool, from its type. -/
def getDefaultVolumeFormat (pool : StoragePool) : Option String :=
  getDefaultVolumeFormatOfType pool.type

/-- Modelled from the spec: in the pool-switch branch of `onValueChanged`
the source passes the pool NAME string where `getDefaultVolumeFormat`
expects a pool object; reading the `type` property of a string yields
`undefined`, which matches no pool type, so no format results. -/
def getDefaultVolumeFormatOfName (_poolName : String) : Option String :=
  none

/-- Lower-case latin letters used for disk target names. -/
def targetLetters : List String :=
  ["a", "b", "c", "d", "e", "f", "g", "h", "i", "j", "k", "l", "m",
   "n", "o", "p", "q", "r", "s", "t", "u", "v", "w", "x", "y", "z"]

/-- Modelled from the spec: `getNextAvailableTarget` of helpers.js is not
under src/; per the spec, switching bus type recomputes the next free
device target, i.e. the first bus-prefixed target name not already used. -/
def getNextAvailableTarget (existingTargets : List String) (busType : String) :
    Option String :=
  let stem := if busType = "virtio" then "vd" else if busType = "ide" then "hd" else "sd"
  (targetLetters.map (fun c => stem ++ c)).find? (fun t => ¬ existingTargets.contains t)

/-- Modelled from the spec: `getStorageVolumesUsage` of helpers.js is not
under src/; it maps every volume name of the pool to the names of the VMs
whose disks use that volume (by volume name or by path). -/
def getStorageVolumesUsage (vms : List VM) (pool : StoragePool) :
    List (String × List String) :=
  pool.volumes.map (fun vol =>
    (vol.name,
     (vms.filter (fun vm => vm.disks.any (fun td =>
        td.2.sourceVolume = some vol.name ∨ td.2.sourceFile = some vol.path))).map VM.name))

/-- Code-point comparison of character lists, the order underlying the
`localeCompare`-based sorts of the dialogs. -/
def charListLe : List Char → List Char → Bool
  | [], _ => true
  | _ :: _, [] => false
  | a :: as, b :: bs =>
    if a.toNat < b.toNat then true
    else if b.toNat < a.toNat then false
    else charListLe as bs

/-- String comparison by code points. -/
def strLe (a b : String) : Bool := charListLe a.data b.data

/-- Insert a volume into a name-sorted volume list. -/
def insertVolByName (v : Volume) : List Volume → List Volume
  | [] => [v]
  | w :: ws => if strLe v.name w.name then v :: w :: ws else w :: insertVolByName v ws

/-- `Array.sort` on volumes with the `localeCompare`-by-name comparator,
modelled as sorting by the name string order. -/
def sortVolsByName (l : List Volume) : List Volume :=
  l.foldr insertVolByName []

/-- `getFilteredVolumes` of diskAdd.jsx: the pool's volumes whose path and
name are unused by the VM's disks, sorted by name. -/
def getFilteredVolumes (vmStoragePool : StoragePool) (disks : List (String × Disk)) :
    List Volume :=
  let usedDiskPaths := disks.filterMap (fun td =>
    let v := jsStrOr td.2.sourceFile td.2.sourceVolume
    if strFalsy v then none else v)
  let filteredVolumes := vmStoragePool.volumes.filter (fun volume =>
    ¬ usedDiskPaths.contains volume.path ∧ ¬ usedDiskPaths.contains volume.name)
  sortVolsByName filteredVolumes

/-- Insert a `(name, type)` pool summary into a name-sorted list. -/
def insertPoolNT (p : String × String) : List (String × String) → List (String × String)
  | [] => [p]
  | q :: qs => if strLe p.1 q.1 then p :: q :: qs else q :: insertPoolNT p qs

/-- The `sort(sortFunction)` of `initialState` on `(name, type)` pool
summaries: sorting by name. -/
def sortPoolsNT (l : List (String × String)) : List (String × String) :=
  l.foldr insertPoolNT []

/-- The full local state of `AddDiskModalBody` after loading: the fields of
`initialState` of diskAdd.jsx plus the `validate`/`dialogLoading` flags of
the constructor and the dialog-error fields. -/
structure AddDiskState where
  storagePools : List StoragePool
  vm : VM
  vms : List VM
  file : String
  device : String
  storagePoolName : Option String
  storagePoolType : Option String
  mode : Mode
  volumeName : Option String
  existingVolumeName : Option String
  size : Rat
  unit : DiskUnit
  format : Option String
  target : Option String
  permanent : Bool
  hotplug : Bool
  addDiskInProgress : Bool
  cacheMode : String
  busType : String
  updateDisks : Bool
  validate : Bool
  dialogLoading : Bool
  dialogError : Option String
  dialogErrorDetail : Option String
deriving DecidableEq, Repr

/-- `get initialState` of `AddDiskModalBody`: derives the defaults from the
props (`vm`, `storagePools`, `vms`); the default pool is the name-sorted
first pool, the default bus is virtio. -/
def initialState (storagePools : List StoragePool) (vm : VM) (vms : List VM) :
    AddDiskState :=
  let defaultBus := "virtio"
  let existingTargets := vm.disks.map Prod.fst
  let availableTarget := getNextAvailableTarget existingTargets defaultBus
  let defaultPool := (sortPoolsNT (storagePools.map (fun pool => (pool.name, pool.type)))).head?
  { storagePools := storagePools
    vm := vm
    vms := vms
    file := ""
    device := "disk"
    storagePoolName := defaultPool.map Prod.fst
    storagePoolType := defaultPool.map Prod.snd
    mode := Mode.createNew
    volumeName := none
    existingVolumeName := none
    size := 1
    unit := DiskUnit.GiB
    format := defaultPool.bind (fun dp => getDefaultVolumeFormatOfType dp.2)
    target := availableTarget
    permanent := ¬ domainIsRunning vm.state
    hotplug := domainIsRunning vm.state
    addDiskInProgress := false
    cacheMode := "default"
    busType := defaultBus
    updateDisks := false
    validate := false
    dialogLoading := false
    dialogError := none
    dialogErrorDetail := none }

/-- The `validationFailed` object built by `validateParams`: one optional
message per validated field; an empty object means the state is valid. -/
structure ValidationFailed where
  storagePool : Option String := none
  volumeName : Option String := none
  size : Option String := none
  existingVolumeName : Option String := none
deriving DecidableEq, Repr

/-- The validation object is empty (has no own properties). -/
def ValidationFailed.isEmpty (vf : ValidationFailed) : Bool :=
  vf.storagePool.isNone && vf.volumeName.isNone && vf.size.isNone &&
    vf.existingVolumeName.isNone

/-- `validateParams` of diskAdd.jsx.  Returns `none` where the JS function
throws a `TypeError`: in create-new mode the pool-capacity check
dereferences `storagePools.find(...)` without a guard, so when no pool
carries the selected name the function never returns. -/
def validateParams (s : AddDiskState) : Option ValidationFailed :=
  let vf0 : ValidationFailed := {}
  let vf1 := if s.mode ≠ Mode.customPath ∧ strFalsy s.storagePoolName then
      { vf0 with storagePool := some "Please choose a storage pool" }
    else vf0
  if s.mode = Mode.createNew then
    let vf2 := if strFalsy s.volumeName then
        { vf1 with volumeName := some "Please enter new volume name" }
      else vf1
    let vf3 := if s.storagePoolType.any
          (fun t => poolTypesNotSupportingVolumeCreation.contains t) then
        { vf2 with storagePool := some ("Pool type " ++ s.storagePoolType.getD ""
            ++ " does not support volume creation") }
      else vf2
    match s.storagePools.find? (fun pool => s.storagePoolName = some pool.name) with
    | none => none
    | some pool =>
      let poolCapacity := convertToUnit pool.capacity DiskUnit.B s.unit
      let sizeMsg := "Storage volume size must not exceed the storage pool capacity"
      some (if poolCapacity < s.size then { vf3 with size := some sizeMsg } else vf3)
  else if s.mode = Mode.useExisting then
    some (if s.mode ≠ Mode.customPath ∧ strFalsy s.existingVolumeName then
        { vf1 with existingVolumeName := some "Please choose a volume" }
      else vf1)
  else
    some vf1

/-- `existingVolumeNameDelta(value, poolName)` of diskAdd.jsx: the state
delta `{ existingVolumeName, format? }`, where the optional `format` entry
is present exactly when the pool lookup (by name and the VM's connection)
succeeds; it is then the pool's default format, overridden by the volume's
own format for file-system backed pool types. -/
def existingVolumeNameDelta (storagePools : List StoragePool) (vm : VM)
    (value : Option String) (poolName : Option String) :
    Option String × Option (Option String) :=
  match storagePools.find? (fun pool =>
      poolName = some pool.name ∧ pool.connectionName = vm.connectionName) with
  | none => (value, none)
  | some pool =>
    let fmt := getDefaultVolumeFormat pool
    let fmt := if ["dir", "fs", "netfs", "gluster", "vstorage"].contains pool.type then
        match pool.volumes.find? (fun vol => value = some vol.name) with
        | some volume => (match volume.format with | some f => some f | none => fmt)
        | none => fmt
      else fmt
    (value, some fmt)

/-- `getDefaultVolumeName(poolName)` of diskAdd.jsx: the name of the first
filtered (unused, name-sorted) volume of the pool; `none` models the JS
`TypeError` when no pool carries the name (the unguarded
`vmStoragePool.volumes` dereference inside `getFilteredVolumes`). -/
def getDefaultVolumeName (storagePools : List StoragePool) (vm : VM)
    (poolName : String) : Option (Option String) :=
  match storagePools.find? (fun pool => pool.name = poolName) with
  | none => none
  | some vmStoragePool =>
    some (((getFilteredVolumes vmStoragePool vm.disks).head?).map Volume.name)

/-- The `busType` case of `onValueChanged`: store the bus and recompute the
next free target from the VM's existing disk targets. -/
def setBusType (s : AddDiskState) (value : String) : AddDiskState :=
  let existingTargets := s.vm.disks.map Prod.fst
  let availableTarget := getNextAvailableTarget existingTargets value
  { s with busType := value, target := availableTarget }

/-- The `existingVolumeName` case of `onValueChanged`: apply
`existingVolumeNameDelta` against the (already updated) pool selection. -/
def setExistingVolumeName (s : AddDiskState) (value : Option String) : AddDiskState :=
  let d := existingVolumeNameDelta s.storagePools s.vm value s.storagePoolName
  let s1 := { s with existingVolumeName := d.1 }
  match d.2 with
  | some f => { s1 with format := f }
  | none => s1

/-- The `device` case of `onValueChanged`: store the device; when an
existing disk uses the same device kind, adopt its bus; otherwise switching
to cdrom under a virtio bus falls back to the scsi bus. -/
def setDevice (s : AddDiskState) (value : String) : AddDiskState :=
  let s1 := { s with device := value }
  let newBus := ((s.vm.disks.map Prod.snd).find? (fun disk => disk.device = value)).map
    Disk.bus
  if ¬ strFalsy newBus then
    setBusType s1 (newBus.getD "")
  else if value = "cdrom" ∧ s.busType = "virtio" then
    setBusType s1 "scsi"
  else s1

/-- The `file` case of `onValueChanged`: a path ending in `.iso` (the JS
`String.endsWith`, modelled as a character-list suffix test) first switches
the device to cdrom, then the file is stored. -/
def setFile (s : AddDiskState) (value : String) : AddDiskState :=
  let s1 := if List.isSuffixOf ".iso".data value.data then setDevice s "cdrom" else s
  { s1 with file := value }

/-- The `storagePoolName` case of `onValueChanged`.  `none` models the JS
`TypeError` on `currentPool.type` when no pool matches the new name and the
VM's connection.  The format is reset (through the misapplied
`getDefaultVolumeFormat(value)`) only when the old and the new pool differ
in being of type disk, and in use-existing mode the default volume of the
new pool is selected through the `existingVolumeName` logic. -/
def setStoragePoolName (s : AddDiskState) (value : String) : Option AddDiskState :=
  match s.storagePools.find? (fun pool =>
      pool.name = value ∧ pool.connectionName = s.vm.connectionName) with
  | none => none
  | some currentPool =>
    let prevPool := s.storagePools.find? (fun pool =>
      s.storagePoolName = some pool.name ∧ pool.connectionName = s.vm.connectionName)
    let s1 := { s with storagePoolName := some value,
                       storagePoolType := some currentPool.type }
    let s2 := if prevPool.any (fun pp =>
        (currentPool.type = "disk" ∧ pp.type ≠ "disk") ∨
          (currentPool.type ≠ "disk" ∧ pp.type = "disk")) then
        { s1 with format := getDefaultVolumeFormatOfName value }
      else s1
    if s.mode = Mode.useExisting then
      match getDefaultVolumeName s.storagePools s.vm value with
      | none => none
      | some defVol => some (setExistingVolumeName s2 defVol)
    else
      some s2

/-- The `mode` case of `onValueChanged`: the whole `initialState` is merged
(with the new mode); moving to use-existing additionally derives the default
volume of the default pool, with `existingVolumeNameDelta` evaluated against
the PREVIOUS state's pool selection. -/
def setMode (s : AddDiskState) (value : Mode) : Option AddDiskState :=
  let delta0 := { initialState s.storagePools s.vm s.vms with mode := value }
  if value = Mode.useExisting then
    match delta0.storagePoolName with
    | some poolName =>
      match getDefaultVolumeName s.storagePools s.vm poolName with
      | none => none
      | some defVol =>
        let d := existingVolumeNameDelta s.storagePools s.vm defVol s.storagePoolName
        let s1 := { delta0 with existingVolumeName := d.1 }
        some (match d.2 with
          | some f => { s1 with format := f }
          | none => s1)
    | none => some delta0
  else
    some delta0

/-- The keyed value changes the dialog can receive; the constructors ending
in `K` are handled by the default `setState({[key]: value})` case. -/
inductive FieldChange where
  | mode (m : Mode)
  | storagePoolName (v : String)
  | existingVolumeName (v : Option String)
  | busType (v : String)
  | file (v : String)
  | device (v : String)
  | volumeNameK (v : Option String)
  | sizeK (v : Rat)
  | unitK (v : DiskUnit)
  | formatK (v : Option String)
  | permanentK (v : Bool)
  | cacheModeK (v : String)
deriving DecidableEq, Repr

/-- `onValueChanged` of diskAdd.jsx, as a dispatch over the change keys;
the result is `none` where the handler throws a `TypeError`. -/
def onValueChanged (s : AddDiskState) : FieldChange → Option AddDiskState
  | .mode m => setMode s m
  | .storagePoolName v => setStoragePoolName s v
  | .existingVolumeName v => some (setExistingVolumeName s v)
  | .busType v => some (setBusType s v)
  | .file v => some (setFile s v)
  | .device v => some (setDevice s v)
  | .volumeNameK v => some { s with volumeName := v }
  | .sizeK v => some { s with size := v }
  | .unitK v => some { s with unit := v }
  | .formatK v => some { s with format := v }
  | .permanentK v => some { s with permanent := v }
  | .cacheModeK v => some { s with cacheMode := v }

/-- The argument object of `storageVolumeCreateAndAttach`. -/
structure CreateAndAttachParams where
  connectionName : String
  poolName : Option String
  volumeName : Option String
  size : Rat
  format : Option String
  target : Option String
  permanent : Bool
  hotplug : Bool
  vmName : String
  vmId : String
  cacheMode : String
  busType : String
deriving DecidableEq, Repr

/-- The argument object of `domainAttachDisk`. -/
structure AttachDiskParams where
  connectionName : String
  type : String
  file : String
  device : String
  poolName : Option String
  volumeName : Option String
  format : Option String
  target : Option String
  permanent : Bool
  hotplug : Bool
  vmName : String
  vmId : String
  cacheMode : String
  shareable : Bool
  busType : String
deriving DecidableEq, Repr

/-- A promise-returning libvirt call issued by a dialog; the wrapper layer
is opaque, so a call is just its name and arguments. -/
inductive ExtCall where
  | storageVolumeCreateAndAttach (p : CreateAndAttachParams)
  | domainAttachDisk (p : AttachDiskParams)
  | domainGet (connectionName name id : String)
  | domainChangeBootOrder (id connectionName : String)
deriving DecidableEq, Repr

/-- The call is a `storageVolumeCreateAndAttach`. -/
def ExtCall.isCreateAndAttach : ExtCall → Bool
  | .storageVolumeCreateAndAttach _ => true
  | _ => false

/-- The call is a `domainAttachDisk`. -/
def ExtCall.isAttachDisk : ExtCall → Bool
  | .domainAttachDisk _ => true
  | _ => false

/-- The `domainAttachDisk` argument object built by `onAddClicked` for the
use-existing and custom-path modes. -/
def attachDiskParams (s : AddDiskState) (shareable : Bool) : AttachDiskParams :=
  { connectionName := s.vm.connectionName
    type := if s.mode = Mode.customPath then "file" else "volume"
    file := s.file
    device := s.device
    poolName := s.storagePoolName
    volumeName := s.existingVolumeName
    format := if s.mode ≠ Mode.customPath then s.format else some "raw"
    target := s.target
    permanent := s.permanent
    hotplug := s.hotplug
    vmName := s.vm.name
    vmId := s.vm.id
    cacheMode := s.cacheMode
    shareable := shareable
    busType := s.busType }

/-- The `storageVolumeCreateAndAttach` argument object built by
`onAddClicked` for the create-new mode. -/
def createAndAttachParams (s : AddDiskState) : CreateAndAttachParams :=
  { connectionName := s.vm.connectionName
    poolName := s.storagePoolName
    volumeName := s.volumeName
    size := convertToUnit s.size s.unit DiskUnit.MiB
    format := s.format
    target := s.target
    permanent := s.permanent
    hotplug := s.hotplug
    vmName := s.vm.name
    vmId := s.vm.id
    cacheMode := s.cacheMode
    busType := s.busType }

/-- The synchronous part of `onAddClicked` of diskAdd.jsx: the state after
the handler returns together with the libvirt calls it issued.  A failed
validation only flips the `addDiskInProgress`/`validate` flags and issues
nothing; otherwise exactly one create/attach call is issued per mode.
`none` models the JS `TypeError` in use-existing mode when no pool carries
the selected name (`storagePool.volumes` is dereferenced unguarded). -/
def onAddClicked (s : AddDiskState) : Option (AddDiskState × List ExtCall) :=
  match validateParams s with
  | none => none
  | some validation =>
    if ¬ validation.isEmpty then
      some ({ s with addDiskInProgress := false, validate := true }, [])
    else if s.mode = Mode.createNew then
      some ({ s with addDiskInProgress := true, validate := false },
        [ExtCall.storageVolumeCreateAndAttach (createAndAttachParams s)])
    else if s.mode = Mode.useExisting then
      match s.storagePools.find? (fun pool => s.storagePoolName = some pool.name) with
      | none => none
      | some storagePool =>
        let volume := storagePool.volumes.find? (fun vol =>
          s.existingVolumeName = some vol.name)
        let isVolumeUsed := getStorageVolumesUsage s.vms storagePool
        let shareable := match volume with
          | some vol => vol.format = some "raw" ∧
              (isVolumeUsed.find? (fun kv => some kv.1 = s.existingVolumeName)).isSome
          | none => false
        some (s, [ExtCall.domainAttachDisk (attachDiskParams s shareable)])
    else
      some (s, [ExtCall.domainAttachDisk (attachDiskParams s false)])

/-- The `.catch` handlers of `onAddClicked` (both create and attach paths):
re-enable the form and record the rejection message as the inline dialog
error; no further call is issued. -/
def addDiskCatch (s : AddDiskState) (text message : String) :
    AddDiskState × List ExtCall :=
  ({ s with addDiskInProgress := false,
            dialogError := some text,
            dialogErrorDetail := some message }, [])

/-- The `isDisabled` expression of the Add button in `render`. -/
def addButtonDisabled (s : AddDiskState) : Bool :=
  s.addDiskInProgress ∨ s.dialogLoading ∨
    (s.storagePools.length = 0 ∧ s.mode ≠ Mode.customPath)

/-- A user click on the Add button: a no-op while the button is disabled,
otherwise the `onAddClicked` handler runs. -/
def clickAdd (s : AddDiskState) : Option (AddDiskState × List ExtCall) :=
  if addButtonDisabled s then some (s, []) else onAddClicked s

namespace BootOrder

/-- `BootOrderModal.moveUp` of bootOrder.jsx: on a copy of the device array,
swap the clicked device (at `indexOf device`) with its predecessor.  The JS
assignments are modelled for in-range indices; the up arrow is disabled for
the first row, so `index - 1` is in range whenever the handler can fire. -/
def moveUp {α : Type} [DecidableEq α] (devices : List α) (device : α) : List α :=
  let index := devices.indexOf device
  match devices.get? index, devices.get? (index - 1) with
  | some cur, some prev => (devices.set (index - 1) cur).set index prev
  | _, _ => devices

/-- `BootOrderModal.moveDown` of bootOrder.jsx: swap the clicked device with
its successor, modelled for in-range indices (the down arrow is disabled on
the last row). -/
def moveDown {α : Type} [DecidableEq α] (devices : List α) (device : α) : List α :=
  let index := devices.indexOf device
  match devices.get? index, devices.get? (index + 1) with
  | some cur, some nxt => (devices.set (index + 1) cur).set index nxt
  | _, _ => devices

/-- Swap of the adjacent positions `k` and `k+1` of a list (identity when
out of range): the normal form of the two in-place assignments of
`moveUp`/`moveDown`. -/
def swapAdj {α : Type} : List α → Nat → List α
  | [], _ => []
  | [a], _ => [a]
  | a :: b :: rest, 0 => b :: a :: rest
  | a :: rest, n + 1 => a :: swapAdj rest n

/-- The Save button of `BootOrderModal.render` carries no `isDisabled`
attribute and the modal state has no busy flag: per the source the button is
never disabled. -/
def saveDisabled : Bool := false

/-- `BootOrderModal.save` issues one `domainChangeBootOrder` call each time
it runs. -/
def callsPerSave : Nat := 1

/-- Dialog events for the in-flight-call count: a click on the primary
button, or the settlement (resolution or rejection) of one pending call. -/
inductive DialogEvent where
  | click
  | settle
deriving DecidableEq, Repr

/-- Pending `domainChangeBootOrder` calls of the boot-order dialog after one
event: a click issues a call unless the Save button is disabled, a
settlement retires one. -/
def bootStep (pending : Nat) : DialogEvent → Nat
  | .click => if saveDisabled then pending else pending + callsPerSave
  | .settle => pending - 1

/-- Pending calls after a sequence of events, starting from an idle dialog. -/
def bootPendingAfter (events : List DialogEvent) : Nat :=
  events.foldl bootStep 0

end BootOrder

namespace StoragePoolDelete

/-- The constructor state of `StoragePoolDelete`: an optional inline error
(with its detail, set by `dialogErrorSet`) and the delete-volumes checkbox;
there is no busy flag. -/
structure DialogState where
  dialogError : Option String
  dialogErrorDetail : Option String
  deleteVolumes : Bool
deriving DecidableEq, Repr

/-- The state the dialog's constructor builds. -/
def initialDialogState : DialogState :=
  { dialogError := none, dialogErrorDetail := none, deleteVolumes := false }

/-- A promise-returning libvirt call issued by the pool-delete dialog. -/
inductive PoolDeleteCall where
  | storageVolumeDelete (connectionName poolName volName : String)
  | storagePoolDeactivate (connectionName objPath : String)
  | storagePoolUndefine (connectionName objPath : String)
deriving DecidableEq, Repr

/-- `canDelete` of the pool-delete dialog: no disk of any VM references the
pool by name in its source. -/
def canDelete (pool : StoragePool) (vms : List VM) : Bool :=
  ¬ vms.any (fun vm =>
    (vm.disks.map Prod.snd).any (fun disk => disk.sourcePool = some pool.name))

/-- `canDeleteOnlyWithoutVolumes`: the pool may be deleted and some volume
of it is used by a VM. -/
def canDeleteOnlyWithoutVolumes (pool : StoragePool) (vms : List VM) : Bool :=
  canDelete pool vms &&
    (getStorageVolumesUsage vms pool).any (fun kv => kv.2.length > 0)

/-- The `isDisabled` expression of the Delete button in
`StoragePoolDelete.render`. -/
def deleteButtonDisabled (storagePool : StoragePool) (vms : List VM)
    (st : DialogState) : Bool :=
  canDeleteOnlyWithoutVolumes storagePool vms && st.deleteVolumes

/-- The first call of `storagePoolDeactivateAndUndefine`: deactivate an
active pool (the undefine follows in the promise chain), undefine an
inactive one. -/
def storagePoolDeactivateAndUndefineCall (storagePool : StoragePool) : PoolDeleteCall :=
  if storagePool.active then
    PoolDeleteCall.storagePoolDeactivate storagePool.connectionName storagePool.id
  else
    PoolDeleteCall.storagePoolUndefine storagePool.connectionName storagePool.id

/-- `StoragePoolDelete.delete`: the libvirt calls the handler issues
synchronously — with the checkbox set and volumes present, one
`storageVolumeDelete` per volume (via `Promise.all`), otherwise the first
deactivate/undefine call.  The handler performs no `setState`, so the
dialog state is unchanged by running it. -/
def delete (storagePool : StoragePool) (st : DialogState) : List PoolDeleteCall :=
  let volumes := storagePool.volumes
  if st.deleteVolumes && decide (storagePool.volumes.length > 0) then
    volumes.map (fun volume =>
      PoolDeleteCall.storageVolumeDelete storagePool.connectionName
        storagePool.name volume.name)
  else
    [storagePoolDeactivateAndUndefineCall storagePool]

/-- A user click on the Delete button: a no-op while the button is
disabled, otherwise `delete` runs; either way the dialog state is
unchanged. -/
def clickDelete (storagePool : StoragePool) (vms : List VM) (st : DialogState) :
    DialogState × List PoolDeleteCall :=
  if deleteButtonDisabled storagePool vms st then (st, [])
  else (st, delete storagePool st)

/-- Pending pool-delete calls of the dialog after one event: a click adds
the calls it issues, a settlement retires one. -/
def deleteStep (storagePool : StoragePool) (vms : List VM)
    (x : DialogState × Nat) (e : BootOrder.DialogEvent) : DialogState × Nat :=
  match e with
  | BootOrder.DialogEvent.click =>
    let r := clickDelete storagePool vms x.1
    (r.1, x.2 + r.2.length)
  | BootOrder.DialogEvent.settle => (x.1, x.2 - 1)

/-- Pending calls after a sequence of events, starting from the freshly
constructed dialog. -/
def deletePendingAfter (storagePool : StoragePool) (vms : List VM)
    (events : List BootOrder.DialogEvent) : Nat :=
  (events.foldl (deleteStep storagePool vms) (initialDialogState, 0)).2

end StoragePoolDelete

/-! Concrete fixtures used to instantiate the theorems. -/

/-- A raw-format volume in a directory pool. -/
def volRawX : Volume := { name := "x", path := "/srv/x", format := some "raw" }

/-- A volume without an explicit format. -/
def volPlainY : Volume := { name := "y", path := "/srv/y", format := none }

/-- A directory pool named "alpha" of one GiB capacity. -/
def poolAlpha : StoragePool :=
  { name := "alpha", id := "/pool/alpha", type := "dir", connectionName := "system",
    capacity := 1073741824, volumes := [volRawX, volPlainY],
    active := true, persistent := true }

/-- A second directory pool named "beta". -/
def poolBeta : StoragePool :=
  { name := "beta", id := "/pool/beta", type := "dir", connectionName := "system",
    capacity := 1073741824, volumes := [volPlainY],
    active := true, persistent := true }

/-- A shut-off VM with no disks on the same connection as the pools. -/
def vmNoDisks : VM :=
  { name := "vm1", id := "1", connectionName := "system", state := "shut off",
    disks := [] }

/-- A VM that already carries a cdrom device on the usb bus. -/
def vmWithCdrom : VM :=
  { name := "vm2", id := "2", connectionName := "system", state := "shut off",
    disks := [("sda",
      { sourceFile := none, sourceVolume := none, sourcePool := none,
        device := "cdrom", bus := "usb" })] }

/-- The dialog state right after loading with the two directory pools. -/
def baseState : AddDiskState := initialState [poolAlpha, poolBeta] vmNoDisks []

/-- A dialog state with no pools at all. -/
def emptyPoolsState : AddDiskState := initialState [] vmNoDisks []

/-- A use-existing dialog state whose selected pool name matches no pool of
the dialog's pool list. -/
def sGhostPool : AddDiskState :=
  { emptyPoolsState with mode := Mode.useExisting,
                         storagePoolName := some "p",
                         existingVolumeName := some "v" }

/-- A use-existing dialog state with a pool selected but no volume chosen. -/
def sUEInvalid : AddDiskState := { baseState with mode := Mode.useExisting }

/-- A valid custom-path dialog state. -/
def sCPValid : AddDiskState :=
  { baseState with mode := Mode.customPath, file := "/var/lib/img.raw" }

/-- A create-new dialog state asking for two GiB out of the one-GiB pool. -/
def sOversize : AddDiskState := { baseState with volumeName := some "nv", size := 2 }

/-- The loaded dialog over the VM that already carries a cdrom on usb. -/
def sCdromVM : AddDiskState := initialState [poolAlpha, poolBeta] vmWithCdrom []

/-- A create-new dialog state whose format the user has set to raw. -/
def sC6 : AddDiskState := { baseState with format := some "raw" }

/-- A valid create-new dialog state (volume name entered, one GiB request
against the one-GiB pool). -/
def sCNValid : AddDiskState := { baseState with volumeName := some "nv" }

/-! ## Claims -/

/-- C1 (counterexample): a dialog state on which `validateParams` returns
the empty mapping but `onAddClicked` issues no call at all: in use-existing
mode with a selected pool name that matches no pool of the dialog's list,
the handler dereferences the failed pool lookup and throws before any
libvirt call, so it does not issue exactly one attach call. -/
theorem c1_counterexample_ghost_pool :
    validateParams sGhostPool = some {} ∧
    ValidationFailed.isEmpty {} = true ∧
    onAddClicked sGhostPool = none :=
  ⟨by decide, by decide, by decide⟩

/-- C1 (amended): whenever `validateParams` returns the empty mapping and,
in use-existing mode, the selected pool name belongs to a pool of the
dialog's list, a single invocation of `onAddClicked` issues exactly one
external call: `storageVolumeCreateAndAttach` in create-new mode and
`domainAttachDisk` in the use-existing and custom-path modes. -/
theorem c1_valid_submit_issues_exactly_one_call (s : AddDiskState)
    (vf : ValidationFailed) (hv : validateParams s = some vf)
    (he : vf.isEmpty = true)
    (hpool : s.mode = Mode.useExisting →
      ∃ pool ∈ s.storagePools, s.storagePoolName = some pool.name) :
    ∃ s1 c, onAddClicked s = some (s1, [c]) ∧
      (s.mode = Mode.createNew → c.isCreateAndAttach = true) ∧
      (s.mode ≠ Mode.createNew → c.isAttachDisk = true) := by
  unfold onAddClicked
  rw [hv]
  cases hm : s.mode with
  | createNew =>
    refine ⟨{ s with addDiskInProgress := true, validate := false },
      ExtCall.storageVolumeCreateAndAttach (createAndAttachParams s), ?_,
      fun _ => rfl, fun hne => absurd rfl hne⟩
    simp [he, hm]
  | useExisting =>
    obtain ⟨pool, hmem, hname⟩ := hpool hm
    rcases hfo : s.storagePools.find? (fun pool =>
        s.storagePoolName = some pool.name) with _ | p
    · exact (List.find?_eq_none.mp hfo pool hmem
        (by simp only [decide_eq_true_eq]; exact hname)).elim
    · refine ⟨s, ExtCall.domainAttachDisk (attachDiskParams s
          (match p.volumes.find? (fun vol => s.existingVolumeName = some vol.name) with
            | some vol => decide (vol.format = some "raw" ∧
                ((getStorageVolumesUsage s.vms p).find? (fun kv =>
                  some kv.1 = s.existingVolumeName)).isSome = true)
            | none => false)), ?_,
        fun hc => absurd hc (by decide), fun _ => rfl⟩
      simp [he, hfo]
  | customPath =>
    refine ⟨s, ExtCall.domainAttachDisk (attachDiskParams s false), ?_,
      fun hc => absurd hc (by decide), fun _ => rfl⟩
    simp [he]

/-- C1 (witness): a concrete valid custom-path submission issues exactly one
call, a `domainAttachDisk`. -/
theorem c1_valid_submit_witness :
    ∃ s1 c, onAddClicked sCPValid = some (s1, [c]) ∧
      (sCPValid.mode = Mode.createNew → c.isCreateAndAttach = true) ∧
      (sCPValid.mode ≠ Mode.createNew → c.isAttachDisk = true) :=
  c1_valid_submit_issues_exactly_one_call sCPValid {} (by decide) (by decide)
    (fun hm => absurd hm (by decide))

/-- C2: whenever `validateParams` returns a non-empty mapping,
`onAddClicked` issues no external call and only flips the
`addDiskInProgress` and `validate` flags, leaving every other field of the
state unchanged. -/
theorem c2_invalid_submit_issues_no_call (s : AddDiskState)
    (vf : ValidationFailed) (hv : validateParams s = some vf)
    (he : vf.isEmpty = false) :
    onAddClicked s = some ({ s with addDiskInProgress := false, validate := true }, []) := by
  unfold onAddClicked
  rw [hv]
  simp [he]

/-- C2 (witness): submitting the use-existing state with no volume chosen
issues nothing and only sets the flags. -/
theorem c2_invalid_submit_witness :
    validateParams sUEInvalid =
      some { existingVolumeName := some "Please choose a volume" } ∧
    onAddClicked sUEInvalid =
      some ({ sUEInvalid with addDiskInProgress := false, validate := true }, []) :=
  ⟨by decide,
   c2_invalid_submit_issues_no_call sUEInvalid
     { existingVolumeName := some "Please choose a volume" } (by decide) (by decide)⟩

/-- C3 (counterexample): a create-new dialog state with the storage pool
unset on which `validateParams` does not return a mapping at all — the
unguarded pool-capacity lookup throws — so no mapping with the storagePool
entry is produced. -/
theorem c3_counterexample_create_new_unset_pool :
    emptyPoolsState.mode = Mode.createNew ∧
    emptyPoolsState.storagePoolName = none ∧
    validateParams emptyPoolsState = none :=
  ⟨by decide, by decide, by decide⟩

/-- C3 (amended): with no storage pool selected, `validateParams` returns a
mapping whose storagePool entry is "Please choose a storage pool" in
use-existing mode; in create-new mode the function instead throws at the
pool-capacity lookup and returns no mapping. -/
theorem c3_unset_pool_validation (s : AddDiskState) :
    (s.mode = Mode.useExisting → strFalsy s.storagePoolName = true →
      ∃ vf, validateParams s = some vf ∧
        vf.storagePool = some "Please choose a storage pool") ∧
    (s.mode = Mode.createNew → s.storagePoolName = none →
      validateParams s = none) := by
  constructor
  · intro hm hf
    unfold validateParams
    rw [hm]
    simp only [hf, reduceCtorEq, reduceIte, ne_eq, not_false_iff, true_and, if_true,
      if_false]
    refine ⟨_, rfl, ?_⟩
    split <;> rfl
  · intro hm hp
    unfold validateParams
    rw [hm, hp]
    have hfind : s.storagePools.find?
        (fun pool => (none : Option String) = some pool.name) = none :=
      List.find?_eq_none.mpr (fun x _ => by simp)
    rw [hfind]
    simp

/-- C3 (witness): the storagePool error on a concrete poolless use-existing
state, and the thrown lookup on the concrete create-new state. -/
theorem c3_unset_pool_validation_witness :
    (∃ vf, validateParams { sUEInvalid with storagePoolName := none } = some vf ∧
      vf.storagePool = some "Please choose a storage pool") ∧
    validateParams emptyPoolsState = none :=
  ⟨(c3_unset_pool_validation { sUEInvalid with storagePoolName := none }).1
      (by decide) (by decide),
   (c3_unset_pool_validation emptyPoolsState).2 (by decide) (by decide)⟩

/-- C4: in create-new mode, when the requested size in the selected unit
exceeds the selected pool's capacity converted to that unit, the returned
mapping carries a size error, the mapping is non-empty, and the submission
is rejected: `onAddClicked` issues no call and only sets the flags. -/
theorem c4_oversize_rejected (s : AddDiskState) (pool : StoragePool)
    (hm : s.mode = Mode.createNew)
    (hfind : s.storagePools.find? (fun p => s.storagePoolName = some p.name) = some pool)
    (hlt : convertToUnit pool.capacity DiskUnit.B s.unit < s.size) :
    ∃ vf, validateParams s = some vf ∧ vf.size.isSome = true ∧
      vf.isEmpty = false ∧
      onAddClicked s = some ({ s with addDiskInProgress := false, validate := true }, []) := by
  have key : (validateParams s).elim False
      (fun vf => vf.size.isSome = true ∧ vf.isEmpty = false) := by
    unfold validateParams
    rw [hm, hfind]
    simp [hlt, ValidationFailed.isEmpty, Option.elim]
  rcases hv : validateParams s with _ | vf
  · rw [hv] at key; exact key.elim
  · rw [hv] at key
    refine ⟨vf, rfl, key.1, key.2, ?_⟩
    unfold onAddClicked
    rw [hv]
    simp [key.2]

/-- C4 (witness): the two-GiB request against the one-GiB pool "alpha" is
rejected with a size error. -/
theorem c4_oversize_rejected_witness :
    ∃ vf, validateParams sOversize = some vf ∧ vf.size.isSome = true ∧
      vf.isEmpty = false ∧
      onAddClicked sOversize =
        some ({ sOversize with addDiskInProgress := false, validate := true }, []) :=
  c4_oversize_rejected sOversize poolAlpha (by decide) (by decide)
    (by norm_num [convertToUnit, DiskUnit.factor, poolAlpha, sOversize, baseState,
      initialState])

/-- C5 (counterexample): under a virtio bus, switching the device to cdrom
does NOT yield the scsi bus when an existing disk of the VM already has
device cdrom: the handler adopts that disk's bus (usb here) instead. -/
theorem c5_counterexample_existing_cdrom_bus_adopted :
    sCdromVM.busType = "virtio" ∧
    onValueChanged sCdromVM (FieldChange.device "cdrom") =
      some (setDevice sCdromVM "cdrom") ∧
    (setDevice sCdromVM "cdrom").device = "cdrom" ∧
    (setDevice sCdromVM "cdrom").busType = "usb" ∧
    (setDevice sCdromVM "cdrom").busType ≠ "scsi" :=
  ⟨by decide, rfl, by decide, by decide, by decide⟩

/-- C5 (amended): for every dialog state whose busType is virtio and whose
VM has no existing disk with device cdrom, changing the device to cdrom
yields device cdrom, busType scsi and the target recomputed for the scsi
bus. -/
theorem c5_cdrom_virtio_switches_scsi (s : AddDiskState)
    (hbus : s.busType = "virtio")
    (hno : ∀ td ∈ s.vm.disks, td.2.device ≠ "cdrom") :
    onValueChanged s (FieldChange.device "cdrom") = some (setDevice s "cdrom") ∧
    (setDevice s "cdrom").device = "cdrom" ∧
    (setDevice s "cdrom").busType = "scsi" ∧
    (setDevice s "cdrom").target =
      getNextAvailableTarget (s.vm.disks.map Prod.fst) "scsi" := by
  have hfind : (s.vm.disks.map Prod.snd).find?
      (fun disk => disk.device = "cdrom") = none := by
    apply List.find?_eq_none.mpr
    intro d hd
    obtain ⟨td, htd, rfl⟩ := List.mem_map.mp hd
    simp [hno td htd]
  refine ⟨rfl, ?_, ?_, ?_⟩ <;>
    · unfold setDevice
      rw [hfind]
      simp [hbus, setBusType, strFalsy]

/-- C5 (witness): on the loaded dialog (virtio bus, no disks) switching the
device to cdrom flips the bus to scsi and recomputes the target. -/
theorem c5_cdrom_virtio_witness :
    onValueChanged baseState (FieldChange.device "cdrom") =
      some (setDevice baseState "cdrom") ∧
    (setDevice baseState "cdrom").device = "cdrom" ∧
    (setDevice baseState "cdrom").busType = "scsi" ∧
    (setDevice baseState "cdrom").target =
      getNextAvailableTarget (baseState.vm.disks.map Prod.fst) "scsi" :=
  c5_cdrom_virtio_switches_scsi baseState (by decide) (by decide)

/-- C6 (counterexample): in create-new mode, switching from the dir pool
"alpha" to the dir pool "beta" keeps the old format selection (raw) instead
of re-deriving the default volume format of the newly selected pool
(qcow2): the source resets the format only when the disk-type boundary is
crossed. -/
theorem c6_counterexample_format_kept_create_new :
    sC6.mode = Mode.createNew ∧
    onValueChanged sC6 (FieldChange.storagePoolName "beta") =
      setStoragePoolName sC6 "beta" ∧
    (setStoragePoolName sC6 "beta").map AddDiskState.storagePoolName =
      some (some "beta") ∧
    (setStoragePoolName sC6 "beta").map AddDiskState.format = some (some "raw") ∧
    getDefaultVolumeFormat poolBeta = some "qcow2" ∧
    (some "raw" : Option String) ≠ some "qcow2" :=
  ⟨by decide, rfl, by decide, by decide, by decide, by decide⟩

/-- C6 (amended): in use-existing mode, switching the pool selects the new
pool, picks as existingVolumeName the first available (unused, name-sorted)
volume of the new pool (`getDefaultVolumeName`), and re-derives the format
through `existingVolumeNameDelta`: the new pool's default volume format,
overridden by the chosen volume's own format for file-system backed pool
types.  In create-new mode the format is only reset when the old and new
pool differ in being of type disk. -/
theorem c6_pool_switch_use_existing (s : AddDiskState) (value : String)
    (cp : StoragePool) (prevOpt : Option StoragePool) (dv f : Option String)
    (hm : s.mode = Mode.useExisting)
    (hcp : s.storagePools.find? (fun pool =>
      pool.name = value ∧ pool.connectionName = s.vm.connectionName) = some cp)
    (hprev : s.storagePools.find? (fun pool =>
      s.storagePoolName = some pool.name ∧
        pool.connectionName = s.vm.connectionName) = prevOpt)
    (hdv : getDefaultVolumeName s.storagePools s.vm value = some dv)
    (hd : existingVolumeNameDelta s.storagePools s.vm dv (some value) = (dv, some f)) :
    ∃ s2, setStoragePoolName s value = some s2 ∧
      s2.storagePoolName = some value ∧
      s2.storagePoolType = some cp.type ∧
      s2.existingVolumeName = dv ∧
      s2.format = f := by
  unfold setStoragePoolName
  rw [hcp, hprev, hm, hdv]
  simp only [reduceIte]
  split
  · exact ⟨_, rfl, by simp [setExistingVolumeName, hd], by simp [setExistingVolumeName, hd],
      by simp [setExistingVolumeName, hd], by simp [setExistingVolumeName, hd]⟩
  · exact ⟨_, rfl, by simp [setExistingVolumeName, hd], by simp [setExistingVolumeName, hd],
      by simp [setExistingVolumeName, hd], by simp [setExistingVolumeName, hd]⟩

/-- C6 (witness): switching the use-existing dialog from pool "alpha" to
pool "beta" selects beta's only unused volume "y" and beta's default
format qcow2 (volume "y" carries no own format). -/
theorem c6_pool_switch_witness :
    ∃ s2, setStoragePoolName sUEInvalid "beta" = some s2 ∧
      s2.storagePoolName = some "beta" ∧
      s2.storagePoolType = some poolBeta.type ∧
      s2.existingVolumeName = some "y" ∧
      s2.format = some "qcow2" :=
  c6_pool_switch_use_existing sUEInvalid "beta" poolBeta (some poolAlpha)
    (some "y") (some "qcow2") (by decide) (by decide) (by decide) (by decide)
    (by decide)

/-- Inserting into the sorted pool list is a permutation of consing. -/
theorem insertPoolNT_perm (p : String × String) (l : List (String × String)) :
    (insertPoolNT p l).Perm (p :: l) := by
  induction l with
  | nil => exact List.Perm.refl _
  | cons q qs ih =>
    unfold insertPoolNT
    split
    · exact List.Perm.refl _
    · exact (ih.cons q).trans (List.Perm.swap p q qs)

/-- The name-sort of the pool summaries is a permutation of the input. -/
theorem sortPoolsNT_perm (l : List (String × String)) :
    (sortPoolsNT l).Perm l := by
  induction l with
  | nil => exact List.Perm.refl _
  | cons q qs ih => exact (insertPoolNT_perm q (sortPoolsNT qs)).trans (ih.cons q)

/-- The head of the name-sorted pool summaries is one of the summaries. -/
theorem head?_sortPoolsNT_mem (l : List (String × String)) (x : String × String)
    (h : (sortPoolsNT l).head? = some x) : x ∈ l := by
  rcases hs : sortPoolsNT l with _ | ⟨a, t⟩
  · rw [hs] at h; exact absurd h (by simp)
  · rw [hs] at h
    have hx : x = a := (Option.some.inj h).symm
    subst hx
    exact (sortPoolsNT_perm l).subset (hs ▸ List.mem_cons_self x t)

/-- With the default pool set, the dialog's pool list contains a pool of
that name, so the default-volume lookup cannot throw. -/
theorem initial_pool_name_mem (storagePools : List StoragePool) (vm : VM)
    (vms : List VM) (pn : String)
    (h : (initialState storagePools vm vms).storagePoolName = some pn) :
    ∃ pool ∈ storagePools, pool.name = pn := by
  have h2 : ((sortPoolsNT (storagePools.map (fun pool =>
      (pool.name, pool.type)))).head?).map Prod.fst = some pn := h
  rcases hh : (sortPoolsNT (storagePools.map (fun pool =>
      (pool.name, pool.type)))).head? with _ | dp
  · rw [hh] at h2; exact absurd h2 (by simp)
  · rw [hh] at h2
    obtain ⟨pool, hpmem, hpeq⟩ := List.mem_map.mp (head?_sortPoolsNT_mem _ _ hh)
    refine ⟨pool, hpmem, ?_⟩
    have : dp.1 = pn := Option.some.inj h2
    rw [← this, ← hpeq]

/-- C7 (counterexample): switching the mode of the freshly loaded dialog to
use-existing yields format raw (the default volume "x" of pool "alpha"
carries format raw), not the initial default format qcow2 — the format is
not reset to its initial default. -/
theorem c7_counterexample_format_not_initial :
    onValueChanged baseState (FieldChange.mode Mode.useExisting) =
      setMode baseState Mode.useExisting ∧
    (setMode baseState Mode.useExisting).map AddDiskState.format =
      some (some "raw") ∧
    (initialState baseState.storagePools baseState.vm baseState.vms).format =
      some "qcow2" ∧
    (some "raw" : Option String) ≠ some "qcow2" :=
  ⟨rfl, by decide, by decide, by decide⟩

/-- C7 (amended): switching the mode always succeeds and resets the whole
state to `initialState` with the new mode: in particular volumeName and
target are reset to their initial defaults; the format is reset to its
initial default except when switching to use-existing with a default pool
present, where the format (and existingVolumeName) are re-derived through
`existingVolumeNameDelta` against the previously selected pool, which can
differ from the initial default format. -/
theorem c7_mode_switch_resets_fields (s : AddDiskState) (m : Mode) :
    ∃ s2, setMode s m = some s2 ∧ s2.mode = m ∧
      s2.volumeName = (initialState s.storagePools s.vm s.vms).volumeName ∧
      s2.target = (initialState s.storagePools s.vm s.vms).target ∧
      (m ≠ Mode.useExisting →
        s2.format = (initialState s.storagePools s.vm s.vms).format) ∧
      ((initialState s.storagePools s.vm s.vms).storagePoolName = none →
        s2.format = (initialState s.storagePools s.vm s.vms).format) ∧
      (m = Mode.useExisting → ∀ pn dv fU,
        (initialState s.storagePools s.vm s.vms).storagePoolName = some pn →
        getDefaultVolumeName s.storagePools s.vm pn = some dv →
        existingVolumeNameDelta s.storagePools s.vm dv s.storagePoolName = (dv, fU) →
        s2.existingVolumeName = dv ∧
        s2.format = fU.getD (initialState s.storagePools s.vm s.vms).format) := by
  by_cases hmE : m = Mode.useExisting
  · subst hmE
    rcases hsp : (initialState s.storagePools s.vm s.vms).storagePoolName with _ | pnv
    · refine ⟨{ initialState s.storagePools s.vm s.vms with mode := Mode.useExisting },
        ?_, rfl, rfl, rfl, fun h => absurd rfl h, fun _ => rfl, ?_⟩
      · simp [setMode, hsp]
      · intro _ pn dv fU hpn
        exact absurd hpn (by simp)
    · obtain ⟨pool0, hp0mem, hp0name⟩ := initial_pool_name_mem s.storagePools s.vm s.vms pnv hsp
      obtain ⟨dvv, hdvv⟩ : ∃ dvv, getDefaultVolumeName s.storagePools s.vm pnv = some dvv := by
        unfold getDefaultVolumeName
        rcases hfo : s.storagePools.find? (fun pool => pool.name = pnv) with _ | p
        · exact (List.find?_eq_none.mp hfo pool0 hp0mem
            (by simp only [decide_eq_true_eq]; exact hp0name)).elim
        · rw [hfo]; exact ⟨_, rfl⟩
      cases hd2 : (existingVolumeNameDelta s.storagePools s.vm dvv s.storagePoolName).2 with
      | some fv =>
        refine ⟨{ { { initialState s.storagePools s.vm s.vms with mode := Mode.useExisting }
            with existingVolumeName :=
              (existingVolumeNameDelta s.storagePools s.vm dvv s.storagePoolName).1 }
            with format := fv },
          ?_, rfl, rfl, rfl, fun h => absurd rfl h, ?_, ?_⟩
        · simp [setMode, hsp, hdvv, hd2]
        · intro h; exact absurd h (by simp)
        · intro _ pn dv fU hpn hdv hdelta
          obtain rfl : pnv = pn := Option.some.inj hpn
          rw [hdvv] at hdv
          obtain rfl : dvv = dv := Option.some.inj hdv
          have hfU : fU = some fv := by
            have := congrArg Prod.snd hdelta
            rw [hd2] at this
            exact this.symm
          subst hfU
          exact ⟨congrArg Prod.fst hdelta, rfl⟩
      | none =>
        refine ⟨{ { initialState s.storagePools s.vm s.vms with mode := Mode.useExisting }
            with existingVolumeName :=
              (existingVolumeNameDelta s.storagePools s.vm dvv s.storagePoolName).1 },
          ?_, rfl, rfl, rfl, fun h => absurd rfl h, ?_, ?_⟩
        · simp [setMode, hsp, hdvv, hd2]
        · intro h; exact absurd h (by simp)
        · intro _ pn dv fU hpn hdv hdelta
          obtain rfl : pnv = pn := Option.some.inj hpn
          rw [hdvv] at hdv
          obtain rfl : dvv = dv := Option.some.inj hdv
          have hfU : fU = none := by
            have := congrArg Prod.snd hdelta
            rw [hd2] at this
            exact this.symm
          subst hfU
          exact ⟨congrArg Prod.fst hdelta, rfl⟩
  · refine ⟨{ initialState s.storagePools s.vm s.vms with mode := m },
      ?_, rfl, rfl, rfl, fun _ => rfl, fun _ => rfl, fun hmE2 => absurd hmE2 hmE⟩
    simp [setMode, hmE]

/-- C7 (witness): switching the loaded dialog to custom-path mode resets
mode, volumeName, target and format to the initial defaults. -/
theorem c7_mode_switch_witness :
    ∃ s2, setMode baseState Mode.customPath = some s2 ∧
      s2.mode = Mode.customPath ∧
      s2.volumeName = (initialState baseState.storagePools baseState.vm
        baseState.vms).volumeName ∧
      s2.target = (initialState baseState.storagePools baseState.vm
        baseState.vms).target ∧
      s2.format = (initialState baseState.storagePools baseState.vm
        baseState.vms).format := by
  obtain ⟨s2, h1, h2, h3, h4, h5, _, _⟩ :=
    c7_mode_switch_resets_fields baseState Mode.customPath
  exact ⟨s2, h1, h2, h3, h4, h5 (by decide)⟩

/-- C8: whenever the attach/create call issued by `onAddClicked` rejects
with a message, the `.catch` handler re-enables the form
(addDiskInProgress false), records the error text and the rejection message
as the inline dialog error, issues no further external call, and leaves
every form field at its pre-submission value. -/
theorem c8_failure_reenables_form (s s1 : AddDiskState) (cs : List ExtCall)
    (text message : String)
    (hsub : onAddClicked s = some (s1, cs)) (hcs : cs ≠ []) :
    (addDiskCatch s1 text message).2 = [] ∧
    (addDiskCatch s1 text message).1.addDiskInProgress = false ∧
    (addDiskCatch s1 text message).1.dialogError = some text ∧
    (addDiskCatch s1 text message).1.dialogErrorDetail = some message ∧
    (addDiskCatch s1 text message).1.mode = s.mode ∧
    (addDiskCatch s1 text message).1.storagePoolName = s.storagePoolName ∧
    (addDiskCatch s1 text message).1.storagePoolType = s.storagePoolType ∧
    (addDiskCatch s1 text message).1.volumeName = s.volumeName ∧
    (addDiskCatch s1 text message).1.existingVolumeName = s.existingVolumeName ∧
    (addDiskCatch s1 text message).1.file = s.file ∧
    (addDiskCatch s1 text message).1.device = s.device ∧
    (addDiskCatch s1 text message).1.size = s.size ∧
    (addDiskCatch s1 text message).1.unit = s.unit ∧
    (addDiskCatch s1 text message).1.format = s.format ∧
    (addDiskCatch s1 text message).1.target = s.target ∧
    (addDiskCatch s1 text message).1.permanent = s.permanent ∧
    (addDiskCatch s1 text message).1.hotplug = s.hotplug ∧
    (addDiskCatch s1 text message).1.cacheMode = s.cacheMode ∧
    (addDiskCatch s1 text message).1.busType = s.busType := by
  unfold onAddClicked at hsub
  rcases hval : validateParams s with _ | vf
  · rw [hval] at hsub
    exact absurd hsub (by simp)
  · rw [hval] at hsub
    cases hemp : vf.isEmpty with
    | false =>
      simp [hemp] at hsub
      exact absurd hsub.2 hcs
    | true =>
      cases hm : s.mode with
      | createNew =>
        simp [hemp, hm] at hsub
        obtain ⟨hs1, -⟩ := hsub
        subst hs1
        simp [addDiskCatch, hm]
      | useExisting =>
        rcases hfo : s.storagePools.find? (fun pool =>
            s.storagePoolName = some pool.name) with _ | p
        · rw [hfo] at hsub
          simp [hemp, hm] at hsub
        · rw [hfo] at hsub
          simp [hemp, hm] at hsub
          obtain ⟨hs1, -⟩ := hsub
          subst hs1
          simp [addDiskCatch, hm]
      | customPath =>
        simp [hemp, hm] at hsub
        obtain ⟨hs1, -⟩ := hsub
        subst hs1
        simp [addDiskCatch, hm]

/-- C8 (witness): for the concrete custom-path submission, a rejection with
message "boom" re-enables the form, records the error, and keeps the file
and device fields. -/
theorem c8_failure_reenables_form_witness :
    (addDiskCatch sCPValid "Disk failed to be attached" "boom").2 = [] ∧
    (addDiskCatch sCPValid "Disk failed to be attached" "boom").1.addDiskInProgress
      = false ∧
    (addDiskCatch sCPValid "Disk failed to be attached" "boom").1.dialogErrorDetail
      = some "boom" ∧
    (addDiskCatch sCPValid "Disk failed to be attached" "boom").1.file = sCPValid.file := by
  obtain ⟨h1, h2, -, h4, -, -, -, -, -, h10, -⟩ :=
    c8_failure_reenables_form sCPValid sCPValid
      [ExtCall.domainAttachDisk (attachDiskParams sCPValid false)]
      "Disk failed to be attached" "boom" (by decide) (by decide)
  exact ⟨h1, h2, h4, h10⟩

/-- C9 (counterexample): neither the boot-order dialog nor the pool-delete
dialog has a busy flag.  BootOrder's Save button is never disabled and each
click issues a `domainChangeBootOrder` call; the pool-delete Delete button
(enabled here: the pool's volumes are unused) issues its delete call on
each click without any state change.  In both dialogs two clicks while the
first call is pending leave two persistence operations in flight at once —
the claimed at-most-one invariant fails. -/
theorem c9_counterexample_double_click_two_pending :
    BootOrder.saveDisabled = false ∧
    BootOrder.bootPendingAfter
      [BootOrder.DialogEvent.click, BootOrder.DialogEvent.click] = 2 ∧
    ¬ BootOrder.bootPendingAfter
      [BootOrder.DialogEvent.click, BootOrder.DialogEvent.click] ≤ 1 ∧
    StoragePoolDelete.deleteButtonDisabled poolAlpha []
      StoragePoolDelete.initialDialogState = false ∧
    StoragePoolDelete.deletePendingAfter poolAlpha []
      [BootOrder.DialogEvent.click, BootOrder.DialogEvent.click] = 2 ∧
    ¬ StoragePoolDelete.deletePendingAfter poolAlpha []
      [BootOrder.DialogEvent.click, BootOrder.DialogEvent.click] ≤ 1 :=
  ⟨rfl, by decide, by decide, by decide, by decide, by decide⟩

/-- C9 (amended): only the AddDisk dialog's create-new submission is
guarded by a busy flag: when `onAddClicked` issues its call in create-new
mode, the resulting state has addDiskInProgress set, the Add button is
disabled in that state, and a further click is a no-op issuing no call —
so no second call can be pending from the AddDisk dialog in create-new
mode.  The boot-order and pool-delete dialogs set no busy flag:
BootOrder's Save button is never disabled, a click of the pool-delete
Delete button leaves the dialog state unchanged, and that button's only
disabled condition is `canDeleteOnlyWithoutVolumes && deleteVolumes`,
which no submission affects. -/
theorem c9_busy_flag_guard (s s1 : AddDiskState) (cs : List ExtCall)
    (pool : StoragePool) (vms : List VM) (pst : StoragePoolDelete.DialogState)
    (hm : s.mode = Mode.createNew)
    (hsub : onAddClicked s = some (s1, cs)) (hcs : cs ≠ []) :
    (s1.addDiskInProgress = true ∧
     addButtonDisabled s1 = true ∧
     clickAdd s1 = some (s1, [])) ∧
    BootOrder.saveDisabled = false ∧
    (StoragePoolDelete.clickDelete pool vms pst).1 = pst ∧
    StoragePoolDelete.deleteButtonDisabled pool vms pst =
      (StoragePoolDelete.canDeleteOnlyWithoutVolumes pool vms && pst.deleteVolumes) := by
  refine ⟨?_, rfl, ?_, rfl⟩
  · unfold onAddClicked at hsub
    rcases hval : validateParams s with _ | vf
    · rw [hval] at hsub
      exact absurd hsub (by simp)
    · rw [hval] at hsub
      cases hemp : vf.isEmpty with
      | false =>
        simp [hemp] at hsub
        exact absurd hsub.2 hcs
      | true =>
        simp [hemp, hm] at hsub
        obtain ⟨hs1, -⟩ := hsub
        subst hs1
        refine ⟨rfl, ?_, ?_⟩
        · simp [addButtonDisabled]
        · unfold clickAdd
          simp [addButtonDisabled]
  · unfold StoragePoolDelete.clickDelete
    split <;> rfl

/-- Evaluation lemma: a create-new state with a volume name, a supported
selected pool and a size within capacity validates cleanly. -/
theorem validateParams_createNew_eval (s : AddDiskState) (pool : StoragePool)
    (hm : s.mode = Mode.createNew)
    (hvn : strFalsy s.volumeName = false)
    (hpt : s.storagePoolType.any
      (fun t => t ∈ poolTypesNotSupportingVolumeCreation) = false)
    (hsp : strFalsy s.storagePoolName = false)
    (hfind : s.storagePools.find? (fun p => s.storagePoolName = some p.name) = some pool)
    (hnlt : ¬ convertToUnit pool.capacity DiskUnit.B s.unit < s.size) :
    validateParams s = some {} := by
  unfold validateParams
  rw [hm, hfind]
  simp [hvn, hpt, hsp, hnlt]

/-- C9 (witness): submitting the concrete valid create-new state sets the
busy flag, disables the Add button, and makes a second click a no-op;
clicking Delete on the concrete pool-delete dialog leaves its state
unchanged (there is no flag to set). -/
theorem c9_busy_flag_witness :
    ({ sCNValid with addDiskInProgress := true, validate := false } :
      AddDiskState).addDiskInProgress = true ∧
    addButtonDisabled { sCNValid with addDiskInProgress := true, validate := false }
      = true ∧
    clickAdd { sCNValid with addDiskInProgress := true, validate := false } =
      some ({ sCNValid with addDiskInProgress := true, validate := false }, []) ∧
    (StoragePoolDelete.clickDelete poolAlpha []
      StoragePoolDelete.initialDialogState).1 = StoragePoolDelete.initialDialogState := by
  have hval : validateParams sCNValid = some {} :=
    validateParams_createNew_eval sCNValid poolAlpha (by decide) (by decide)
      (by decide) (by decide) (by decide)
      (by norm_num [convertToUnit, DiskUnit.factor, poolAlpha, sCNValid, baseState,
        initialState])
  have hsub : onAddClicked sCNValid =
      some ({ sCNValid with addDiskInProgress := true, validate := false },
        [ExtCall.storageVolumeCreateAndAttach (createAndAttachParams sCNValid)]) := by
    have hmode : sCNValid.mode = Mode.createNew := rfl
    unfold onAddClicked
    rw [hval]
    simp [ValidationFailed.isEmpty, hmode]
  obtain ⟨⟨h1, h2, h3⟩, -, h4, -⟩ :=
    c9_busy_flag_guard sCNValid _ _ poolAlpha [] StoragePoolDelete.initialDialogState
      (by decide) hsub (by simp)
  exact ⟨h1, h2, h3, h4⟩

namespace BootOrder

/-- Swapping adjacent positions preserves the length. -/
theorem swapAdj_length {α : Type} (l : List α) (k : Nat) :
    (swapAdj l k).length = l.length := by
  induction l generalizing k with
  | nil => simp [swapAdj]
  | cons a t ih =>
    cases t with
    | nil => cases k <;> simp [swapAdj]
    | cons b t2 =>
      cases k with
      | zero => simp [swapAdj]
      | succ n => simp [swapAdj, ih]

/-- Swapping adjacent positions exchanges exactly those two entries. -/
theorem swapAdj_get? {α : Type} (l : List α) (k : Nat) (h : k + 1 < l.length) :
    (swapAdj l k).get? k = l.get? (k + 1) ∧
    (swapAdj l k).get? (k + 1) = l.get? k := by
  induction l generalizing k with
  | nil => simp at h
  | cons a t ih =>
    cases t with
    | nil => simp at h
    | cons b t2 =>
      cases k with
      | zero => constructor <;> simp [swapAdj]
      | succ n =>
        have h2 : n + 1 < (b :: t2).length := by
          simp at h ⊢
          omega
        constructor
        · simpa [swapAdj] using (ih n h2).1
        · simpa [swapAdj] using (ih n h2).2

/-- Positions other than the two swapped ones are unchanged. -/
theorem swapAdj_get?_ne {α : Type} (l : List α) (k j : Nat)
    (h1 : j ≠ k) (h2 : j ≠ k + 1) : (swapAdj l k).get? j = l.get? j := by
  induction l generalizing k j with
  | nil => simp [swapAdj]
  | cons a t ih =>
    cases t with
    | nil => cases k <;> simp [swapAdj]
    | cons b t2 =>
      cases k with
      | zero =>
        rcases j with _ | _ | j2
        · exact absurd rfl h1
        · exact absurd rfl h2
        · simp [swapAdj]
      | succ n =>
        cases j with
        | zero => simp [swapAdj]
        | succ j2 =>
          simpa [swapAdj] using
            ih n j2 (fun he => h1 (by omega)) (fun he => h2 (by omega))

/-- Unfolding equation of `swapAdj` for a cons cell at a positive index. -/
theorem swapAdj_cons_succ {α : Type} (a : α) (t : List α) (n : Nat) :
    swapAdj (a :: t) (n + 1) = a :: swapAdj t n := by
  cases t <;> rfl

/-- Swapping the same adjacent pair twice is the identity. -/
theorem swapAdj_swapAdj {α : Type} (l : List α) (k : Nat) :
    swapAdj (swapAdj l k) k = l := by
  induction l generalizing k with
  | nil => simp [swapAdj]
  | cons a t ih =>
    cases t with
    | nil => cases k <;> simp [swapAdj]
    | cons b t2 =>
      cases k with
      | zero => simp [swapAdj]
      | succ n =>
        rw [swapAdj_cons_succ, swapAdj_cons_succ, ih n]

/-- The adjacent swap is a permutation. -/
theorem swapAdj_perm {α : Type} (l : List α) (k : Nat) :
    (swapAdj l k).Perm l := by
  induction l generalizing k with
  | nil => simp [swapAdj]
  | cons a t ih =>
    cases t with
    | nil => cases k <;> simp [swapAdj]
    | cons b t2 =>
      cases k with
      | zero =>
        simp only [swapAdj]
        exact List.Perm.swap a b t2
      | succ n =>
        simp only [swapAdj]
        exact (ih n).cons a

/-- Entries strictly before the index of `d` differ from `d`. -/
theorem get?_ne_of_lt_indexOf {α : Type} [DecidableEq α] (l : List α) (d : α)
    (j : Nat) (h : j < l.indexOf d) : l.get? j ≠ some d := by
  induction l generalizing j with
  | nil => simp
  | cons a t ih =>
    by_cases ha : a = d
    · rw [List.indexOf_cons_eq t ha] at h
      omega
    · rw [List.indexOf_cons_ne t ha] at h
      cases j with
      | zero => simpa using ha
      | succ j2 =>
        show t.get? j2 ≠ some d
        exact ih j2 (Nat.lt_of_succ_lt_succ h)

/-- Characterization of `indexOf` through `get?`. -/
theorem indexOf_eq_of_get? {α : Type} [DecidableEq α] (l : List α) (d : α)
    (i : Nat) (hget : l.get? i = some d)
    (hlt : ∀ j, j < i → l.get? j ≠ some d) : l.indexOf d = i := by
  induction l generalizing i with
  | nil => simp at hget
  | cons a t ih =>
    cases i with
    | zero =>
      have : a = d := by simpa using hget
      exact List.indexOf_cons_eq t this
    | succ i2 =>
      have ha : a ≠ d := by
        have := hlt 0 (Nat.succ_pos i2)
        simpa using this
      rw [List.indexOf_cons_ne t ha]
      have hget2 : t.get? i2 = some d := hget
      have hlt2 : ∀ j, j < i2 → t.get? j ≠ some d := fun j hj =>
        hlt (j + 1) (Nat.succ_lt_succ hj)
      rw [ih i2 hget2 hlt2]

/-- The two in-place assignments of `moveUp` (write the clicked entry one
slot up, write the displaced entry back) equal the adjacent swap. -/
theorem set_swap_eq_swapAdjA {α : Type} (l : List α) (k : Nat) (cur prev : α)
    (hcur : l.get? (k + 1) = some cur) (hprev : l.get? k = some prev) :
    (l.set k cur).set (k + 1) prev = swapAdj l k := by
  induction l generalizing k with
  | nil => simp at hcur
  | cons a t ih =>
    cases k with
    | zero =>
      cases t with
      | nil => simp at hcur
      | cons b t2 =>
        obtain rfl : b = cur := by simpa using hcur
        obtain rfl : a = prev := by simpa using hprev
        rfl
    | succ k2 =>
      cases t with
      | nil => simp at hcur
      | cons b t2 =>
        show a :: (((b :: t2).set k2 cur).set (k2 + 1) prev) =
          a :: swapAdj (b :: t2) k2
        rw [ih k2 hcur hprev]

/-- The two in-place assignments of `moveDown` equal the adjacent swap. -/
theorem set_swap_eq_swapAdjB {α : Type} (l : List α) (k : Nat) (cur nxt : α)
    (hcur : l.get? k = some cur) (hnxt : l.get? (k + 1) = some nxt) :
    (l.set (k + 1) cur).set k nxt = swapAdj l k := by
  induction l generalizing k with
  | nil => simp at hcur
  | cons a t ih =>
    cases k with
    | zero =>
      cases t with
      | nil => simp at hnxt
      | cons b t2 =>
        obtain rfl : a = cur := by simpa using hcur
        obtain rfl : b = nxt := by simpa using hnxt
        rfl
    | succ k2 =>
      cases t with
      | nil => simp at hnxt
      | cons b t2 =>
        show a :: (((b :: t2).set (k2 + 1) cur).set k2 nxt) =
          a :: swapAdj (b :: t2) k2
        rw [ih k2 hcur hnxt]

/-- `moveUp` on the device at a positive index `i` is the adjacent swap at
`i - 1`. -/
theorem moveUp_eq_swapAdj {α : Type} [DecidableEq α] (l : List α) (d : α)
    (i : Nat) (hidx : l.indexOf d = i) (h0 : 0 < i) (hlen : i < l.length) :
    moveUp l d = swapAdj l (i - 1) := by
  obtain ⟨k, rfl⟩ : ∃ k, i = k + 1 := ⟨i - 1, by omega⟩
  have hmem : d ∈ l := List.indexOf_lt_length.mp (hidx ▸ hlen)
  have hget : l.get? (k + 1) = some d := by
    rw [← hidx]
    exact List.indexOf_get? hmem
  have hplen : k < l.length := by omega
  have hprev : l.get? k = some (l.get ⟨k, hplen⟩) := List.get?_eq_get hplen
  unfold moveUp
  simp only [hidx, Nat.add_sub_cancel]
  rw [hget, hprev]
  exact set_swap_eq_swapAdjA l k d (l.get ⟨k, hplen⟩) hget hprev

/-- `moveDown` on the device at index `i` with `i + 1` in range is the
adjacent swap at `i`. -/
theorem moveDown_eq_swapAdj {α : Type} [DecidableEq α] (l : List α) (d : α)
    (i : Nat) (hidx : l.indexOf d = i) (hlen : i + 1 < l.length) :
    moveDown l d = swapAdj l i := by
  have hmem : d ∈ l := List.indexOf_lt_length.mp (hidx ▸ (by omega))
  have hget : l.get? i = some d := by
    rw [← hidx]
    exact List.indexOf_get? hmem
  have hnxt : l.get? (i + 1) = some (l.get ⟨i + 1, hlen⟩) := List.get?_eq_get hlen
  unfold moveDown
  simp only [hidx]
  rw [hget, hnxt]
  exact set_swap_eq_swapAdjB l i d (l.get ⟨i + 1, hlen⟩) hget hnxt

/-- After moving the device at index `i` up, it sits at index `i - 1` and
is still the first occurrence found by `indexOf`. -/
theorem indexOf_swapAdj {α : Type} [DecidableEq α] (l : List α) (d : α)
    (i : Nat) (hidx : l.indexOf d = i) (h0 : 0 < i) (hlen : i < l.length) :
    (swapAdj l (i - 1)).indexOf d = i - 1 := by
  apply indexOf_eq_of_get?
  · have hk : i - 1 + 1 = i := Nat.succ_pred_eq_of_pos h0
    have hlt : i - 1 + 1 < l.length := by omega
    rw [(swapAdj_get? l (i - 1) hlt).1, hk, ← hidx]
    exact List.indexOf_get? (List.indexOf_lt_length.mp (hidx ▸ hlen))
  · intro j hj
    rw [swapAdj_get?_ne l (i - 1) j (by omega) (by omega)]
    exact get?_ne_of_lt_indexOf l d j (by omega)

/-- C10: for a boot-order device at index `i` (its first occurrence) with
`0 < i < length`, `moveUp` swaps positions `i-1` and `i` and leaves every
other position unchanged, preserves the multiset of devices, and is undone
by `moveDown` on the same device; symmetrically, with `i+1 < length`,
`moveDown` swaps positions `i` and `i+1`, leaves the rest unchanged and
preserves the multiset. -/
theorem c10_move_up_down_swap {α : Type} [DecidableEq α] (l : List α) (d : α)
    (i : Nat) (hidx : l.indexOf d = i) :
    (0 < i → i < l.length →
      (moveUp l d).get? (i - 1) = l.get? i ∧
      (moveUp l d).get? i = l.get? (i - 1) ∧
      (∀ j, j ≠ i - 1 → j ≠ i → (moveUp l d).get? j = l.get? j) ∧
      (moveUp l d).Perm l ∧
      moveDown (moveUp l d) d = l) ∧
    (i + 1 < l.length →
      (moveDown l d).get? i = l.get? (i + 1) ∧
      (moveDown l d).get? (i + 1) = l.get? i ∧
      (∀ j, j ≠ i → j ≠ i + 1 → (moveDown l d).get? j = l.get? j) ∧
      (moveDown l d).Perm l) := by
  constructor
  · intro h0 hlen
    obtain ⟨k, rfl⟩ : ∃ k, i = k + 1 := ⟨i - 1, by omega⟩
    have hmu := moveUp_eq_swapAdj l d (k + 1) hidx h0 hlen
    simp only [Nat.add_sub_cancel] at hmu ⊢
    have hidx2 := indexOf_swapAdj l d (k + 1) hidx h0 hlen
    simp only [Nat.add_sub_cancel] at hidx2
    have hlt : k + 1 < l.length := hlen
    refine ⟨?_, ?_, ?_, ?_, ?_⟩
    · rw [hmu]
      exact (swapAdj_get? l k hlt).1
    · rw [hmu]
      exact (swapAdj_get? l k hlt).2
    · intro j hj1 hj2
      rw [hmu]
      exact swapAdj_get?_ne l k j hj1 hj2
    · rw [hmu]
      exact swapAdj_perm l k
    · rw [hmu]
      have hlen2 : k + 1 < (swapAdj l k).length := by
        rw [swapAdj_length]
        omega
      rw [moveDown_eq_swapAdj (swapAdj l k) d k hidx2 hlen2, swapAdj_swapAdj]
  · intro hlen
    have hmd := moveDown_eq_swapAdj l d i hidx hlen
    refine ⟨?_, ?_, ?_, ?_⟩
    · rw [hmd]
      exact (swapAdj_get? l i hlen).1
    · rw [hmd]
      exact (swapAdj_get? l i hlen).2
    · intro j hj1 hj2
      rw [hmd]
      exact swapAdj_get?_ne l i j hj1 hj2
    · rw [hmd]
      exact swapAdj_perm l i

/-- C10 (witness): on the three-device list with the middle device clicked,
moveUp swaps it to the front, moveDown then restores the list, and both
preserve the multiset. -/
theorem c10_move_up_down_swap_witness :
    moveDown (moveUp [10, 20, 30] 20) 20 = [10, 20, 30] ∧
    (moveUp [10, 20, 30] 20).get? 0 = ([10, 20, 30] : List Nat).get? 1 ∧
    (moveUp [10, 20, 30] 20).Perm [10, 20, 30] ∧
    (moveDown [10, 20, 30] 20).get? 2 = ([10, 20, 30] : List Nat).get? 1 := by
  obtain ⟨hu, hd⟩ := c10_move_up_down_swap [10, 20, 30] 20 1 (by decide)
  obtain ⟨h1, -, -, h4, h5⟩ := hu (by decide) (by decide)
  obtain ⟨-, h2, -, -⟩ := hd (by decide)
  exact ⟨h5, h1, h4, h2⟩

end BootOrder

end CockpitMachines
